import Mathlib

/-!
Verification development for the `pwinty` Python client library
(`pwinty/__init__.py`).  The library is a thin HTTP wrapper: a client
object holding a base URL and two authentication headers, a generic
dispatch method `_call_api` translating status codes into `PwintyError`,
and thin endpoint methods on top of it.

The embedding models Python/JSON values with the inductive `JValue`
(carrying Python truthiness, membership and `.get` semantics, including
the `TypeError` / `AttributeError` failures Python raises on values of
the wrong shape), the HTTP transport as an oracle `Request → Response`,
and each method of the `Pwinty` class as a Lean function.
-/

/-- A JSON / Python value as handled by the client: `null` is Python
`None`; `obj` is a dict given as an association list with distinct keys. -/
inductive JValue where
  | null : JValue
  | bool (b : Bool) : JValue
  | num (n : Int) : JValue
  | str (s : String) : JValue
  | arr (elems : List JValue) : JValue
  | obj (fields : List (String × JValue)) : JValue

/-- Python `is None`. -/
def JValue.isNull : JValue → Bool
  | .null => true
  | _ => false

/-- Python truthiness: `None`, `False`, `0`, `""`, `[]`, `{}` are falsy. -/
def JValue.py_truthy : JValue → Bool
  | .null => false
  | .bool b => b
  | .num n => n != 0
  | .str s => s != ""
  | .arr elems => !elems.isEmpty
  | .obj fields => !fields.isEmpty

/-- Whether a character list starts with the given pattern. -/
def charsLeadWith : List Char → List Char → Bool
  | [], _ => true
  | _ :: _, [] => false
  | p :: ps, c :: cs => p == c && charsLeadWith ps cs

/-- Whether a character list contains the pattern as a contiguous run. -/
def charsContain (pat : List Char) : List Char → Bool
  | [] => charsLeadWith pat []
  | c :: cs => charsLeadWith pat (c :: cs) || charsContain pat cs

/-- Substring test, Python `pat in s` for strings. -/
def strContainsSub (s pat : String) : Bool :=
  charsContain pat.data s.data

/-- The exceptions the client code can raise: `PwintyError` with a message
(always a string in practice, but `error.get` can return any value), and
the unhandled `TypeError` / `AttributeError` Python raises when a value
of the wrong shape is tested for membership or subscripted with `.get`. -/
inductive PyExc where
  | pwintyError (msg : JValue) : PyExc
  | typeError : PyExc
  | attributeError : PyExc

/-- Python `k in v`: key membership for dicts, substring for strings,
element membership for lists; `TypeError` on non-containers. -/
def pyContains (k : String) : JValue → Except PyExc Bool
  | .obj fields => .ok (List.lookup k fields).isSome
  | .str s => .ok (strContainsSub s k)
  | .arr elems => .ok (elems.any fun e =>
      match e with
      | .str t => t == k
      | _ => false)
  | _ => .error .typeError

/-- Python `v.get(k)`: only dicts have `.get`; missing keys give `None`;
anything else raises `AttributeError`. -/
def pyGet (k : String) : JValue → Except PyExc JValue
  | .obj fields => .ok ((List.lookup k fields).getD .null)
  | _ => .error .attributeError

/-- An HTTP response as seen by the client: status code plus the JSON
body that `response.json()` decodes to. -/
structure Response where
  status_code : Nat
  body : JValue

/-- The request `_call_api` hands to the HTTP library: method, full URL,
form data, optional multipart file payload, headers. -/
structure Request where
  method : String
  url : String
  data : List (String × JValue)
  files : Option (List (String × JValue))
  headers : List (String × String)

/-- The (immutable) client state set up by `Pwinty.__init__`. -/
structure Pwinty where
  api : String
  headers : List (String × String)

/-- `Pwinty.__init__(merchant_id, apikey, version=None, sandbox=True)`:
version defaults to "v2" when `None`; the base URL is
`https://{sandbox|api}.pwinty.com/{version}`; the two auth headers. -/
def Pwinty.init (merchant_id apikey : String) (version : Option String)
    (sandbox : Bool) : Pwinty :=
  { api := "https://" ++ (if sandbox then "sandbox" else "api")
      ++ ".pwinty.com/" ++ version.getD "v2"
  , headers := [("X-Pwinty-REST-API-Key", apikey),
                ("X-Pwinty-MerchantId", merchant_id)] }

/-- `Pwinty._get_error_message(response)`:
`error = response.json().get('Error')`;
`if error and 'Message' in error: return error.get('Message')`;
`return 'An unknown error occurred'` (with the short-circuit of `and`,
and propagating the exceptions `in` / `.get` raise on ill-shaped values). -/
def Pwinty.get_error_message (jbody : JValue) : Except PyExc JValue :=
  match pyGet "Error" jbody with
  | .error e => .error e
  | .ok error =>
    if error.py_truthy then
      match pyContains "Message" error with
      | .error e => .error e
      | .ok true => pyGet "Message" error
      | .ok false => .ok (.str "An unknown error occurred")
    else
      .ok (.str "An unknown error occurred")

/-- The status-code dispatch at the end of `Pwinty._call_api`: 401 and 404
raise fixed messages, 400 and ≥500 raise the parsed error message, every
other response is returned unchanged. -/
def handleResponse (response : Response) : Except PyExc Response :=
  if response.status_code == 401 then
    .error (.pwintyError (.str "Authentication Failed"))
  else if response.status_code == 404 then
    .error (.pwintyError (.str "The specified resource could not be found"))
  else if response.status_code == 400 || 500 ≤ response.status_code then
    match Pwinty.get_error_message response.body with
    | .ok msg => .error (.pwintyError msg)
    | .error e => .error e
  else
    .ok response

/-- The request `Pwinty._call_api` issues: base URL plus path, kwargs as
form data, the optional file payload, and the stored headers. -/
def Pwinty.buildRequest (p : Pwinty) (method api : String)
    (files : Option (List (String × JValue)))
    (kwargs : List (String × JValue)) : Request :=
  { method := method, url := p.api ++ api, data := kwargs
  , files := files, headers := p.headers }

/-- `Pwinty._call_api(method, api, files=None, **kwargs)`, with the HTTP
transport abstracted as an oracle from requests to responses. -/
def Pwinty.call_api (p : Pwinty) (method api : String)
    (files : Option (List (String × JValue)))
    (kwargs : List (String × JValue))
    (http : Request → Response) : Except PyExc Response :=
  handleResponse (http (p.buildRequest method api files kwargs))

/-- `Pwinty.get_orders`: GET /Orders, returning the decoded JSON body. -/
def Pwinty.get_orders (p : Pwinty) (http : Request → Response) :
    Except PyExc JValue :=
  match p.call_api "GET" "/Orders" none [] http with
  | .error e => .error e
  | .ok response => .ok response.body

/-- `Pwinty.get_order(order_id)`: GET /Orders/{order_id}.  Order ids are
modelled by the string they are formatted to in the path. -/
def Pwinty.get_order (p : Pwinty) (order_id : String)
    (http : Request → Response) : Except PyExc JValue :=
  match p.call_api "GET" ("/Orders/" ++ order_id) none [] http with
  | .error e => .error e
  | .ok response => .ok response.body

/-- `Pwinty.create_order(**kwargs)`: POST /Orders with the kwargs as data. -/
def Pwinty.create_order (p : Pwinty) (kwargs : List (String × JValue))
    (http : Request → Response) : Except PyExc JValue :=
  match p.call_api "POST" "/Orders" none kwargs http with
  | .error e => .error e
  | .ok response => .ok response.body

/-- `Pwinty.update_order(order_id, **kwargs)`: PUT /Orders/{order_id};
status 403 additionally raises an endpoint-specific PwintyError. -/
def Pwinty.update_order (p : Pwinty) (order_id : String)
    (kwargs : List (String × JValue)) (http : Request → Response) :
    Except PyExc JValue :=
  match p.call_api "PUT" ("/Orders/" ++ order_id) none kwargs http with
  | .error e => .error e
  | .ok response =>
    if response.status_code == 403 then
      .error (.pwintyError (.str "Order submitted and can not be updated"))
    else
      .ok response.body

/-- `Pwinty.update_order_status(order_id, status)`: POST
/Orders/{order_id}/Status with data {status: status}; 403 raises. -/
def Pwinty.update_order_status (p : Pwinty) (order_id : String)
    (status : JValue) (http : Request → Response) : Except PyExc JValue :=
  match p.call_api "POST" ("/Orders/" ++ order_id ++ "/Status") none
      [("status", status)] http with
  | .error e => .error e
  | .ok response =>
    if response.status_code == 403 then
      .error (.pwintyError (.str "Can not move to specified status from current"))
    else
      .ok response.body

/-- `Pwinty.get_submission_status(order_id)`: GET
/Orders/{order_id}/SubmissionStatus. -/
def Pwinty.get_submission_status (p : Pwinty) (order_id : String)
    (http : Request → Response) : Except PyExc JValue :=
  match p.call_api "GET" ("/Orders/" ++ order_id ++ "/SubmissionStatus")
      none [] http with
  | .error e => .error e
  | .ok response => .ok response.body

/-- `Pwinty.get_countries`: GET /Country. -/
def Pwinty.get_countries (p : Pwinty) (http : Request → Response) :
    Except PyExc JValue :=
  match p.call_api "GET" "/Country" none [] http with
  | .error e => .error e
  | .ok response => .ok response.body

/-- `Pwinty.get_photos(order_id)`: GET /Orders/{order_id}/Photos. -/
def Pwinty.get_photos (p : Pwinty) (order_id : String)
    (http : Request → Response) : Except PyExc JValue :=
  match p.call_api "GET" ("/Orders/" ++ order_id ++ "/Photos") none [] http with
  | .error e => .error e
  | .ok response => .ok response.body

/-- `Pwinty.get_photo(order_id, photo_id)`: GET
/Orders/{order_id}/Photos/{photo_id}. -/
def Pwinty.get_photo (p : Pwinty) (order_id photo_id : String)
    (http : Request → Response) : Except PyExc JValue :=
  match p.call_api "GET"
      ("/Orders/" ++ order_id ++ "/Photos/" ++ photo_id) none [] http with
  | .error e => .error e
  | .ok response => .ok response.body

/-- The `data` dict built inside `Pwinty.add_photo`: exactly the six keys,
with `copies or 1` and `sizing or 'Crop'` (Python `or` replaces every
falsy value by the default). -/
def Pwinty.addPhotoData (ptype url copies sizing price_to_user md5hash :
    JValue) : List (String × JValue) :=
  [("type", ptype),
   ("url", url),
   ("copies", if copies.py_truthy then copies else .num 1),
   ("sizing", if sizing.py_truthy then sizing else .str "Crop"),
   ("priceToUser", price_to_user),
   ("md5Hash", md5hash)]

/-- The `files` argument built inside `Pwinty.add_photo`: a payload
`{'file': open(imgfile, 'r')}` only when `imgfile` is truthy (the opened
file object is modelled by the path it was opened from). -/
def Pwinty.addPhotoFiles (imgfile : JValue) :
    Option (List (String × JValue)) :=
  if imgfile.py_truthy then some [("file", imgfile)] else none

/-- `Pwinty.add_photo(order_id, ptype, url=None, copies=None, sizing=None,
price_to_user=None, md5hash=None, imgfile=None)`: the two `is None`
validation checks, then POST /Orders/{order_id}/Photos with the data and
files payloads, then the 403 check. -/
def Pwinty.add_photo (p : Pwinty) (order_id : String)
    (ptype url copies sizing price_to_user md5hash imgfile : JValue)
    (http : Request → Response) : Except PyExc JValue :=
  if url.isNull && imgfile.isNull then
    .error (.pwintyError (.str "File or URL for the image is required"))
  else if !url.isNull && !imgfile.isNull then
    .error (.pwintyError (.str "Cannot use both a URL and a file"))
  else
    match p.call_api "POST" ("/Orders/" ++ order_id ++ "/Photos")
        (Pwinty.addPhotoFiles imgfile)
        (Pwinty.addPhotoData ptype url copies sizing price_to_user md5hash)
        http with
    | .error e => .error e
    | .ok response =>
      if response.status_code == 403 then
        .error (.pwintyError (.str "Cannot add photos to this order"))
      else
        .ok response.body

/-- The HTTP requests `Pwinty.add_photo` issues: none when either `is
None` validation check fires, otherwise exactly the one POST request. -/
def Pwinty.add_photo_requests (p : Pwinty) (order_id : String)
    (ptype url copies sizing price_to_user md5hash imgfile : JValue) :
    List Request :=
  if url.isNull && imgfile.isNull then []
  else if !url.isNull && !imgfile.isNull then []
  else
    [p.buildRequest "POST" ("/Orders/" ++ order_id ++ "/Photos")
      (Pwinty.addPhotoFiles imgfile)
      (Pwinty.addPhotoData ptype url copies sizing price_to_user md5hash)]

/-- `Pwinty.delete_photo(order_id, photo_id)`: DELETE
/Orders/{order_id}/Photos/{photo_id}; 403 raises. -/
def Pwinty.delete_photo (p : Pwinty) (order_id photo_id : String)
    (http : Request → Response) : Except PyExc JValue :=
  match p.call_api "DELETE"
      ("/Orders/" ++ order_id ++ "/Photos/" ++ photo_id) none [] http with
  | .error e => .error e
  | .ok response =>
    if response.status_code == 403 then
      .error (.pwintyError (.str "Cannot remove photos from this order"))
    else
      .ok response.body

/-- `Pwinty.get_catalogue(country_code, quality_level)`: GET
/Catalogue/{country_code}/{quality_level}. -/
def Pwinty.get_catalogue (p : Pwinty) (country_code quality_level : String)
    (http : Request → Response) : Except PyExc JValue :=
  match p.call_api "GET"
      ("/Catalogue/" ++ country_code ++ "/" ++ quality_level)
      none [] http with
  | .error e => .error e
  | .ok response => .ok response.body

/-- An operation on a local file: the opening of a path (with its mode)
or the closing of a previously opened path. -/
inductive FileOp where
  | openf (path : JValue) (mode : String) : FileOp
  | closef (path : JValue) : FileOp

/-- The file operations `Pwinty.add_photo` performs: after the validation
checks, `open(imgfile, 'r')` when `imgfile` is truthy, and nothing else —
the source contains no close / release of the handle on any path. -/
def Pwinty.add_photo_file_ops (url imgfile : JValue) : List FileOp :=
  if url.isNull && imgfile.isNull then []
  else if !url.isNull && !imgfile.isNull then []
  else if imgfile.py_truthy then [FileOp.openf imgfile "r"] else []

/-- Recognizer for close operations, used to state that `add_photo` never
closes the file handle it opens. -/
def FileOp.isClose : FileOp → Bool
  | .closef _ => true
  | _ => false

/-- Reading of the spec sentence on error extraction, written from its
words, to be compared with `Pwinty.get_error_message`: the message is the
body's `Error.Message` field when that field is present (body a JSON
object whose `Error` field is a JSON object with a `Message` key), else
the generic fallback message. -/
def errorMessageSpec (jbody : JValue) : JValue :=
  match jbody with
  | .obj fields =>
    match List.lookup "Error" fields with
    | some (.obj efields) =>
      match List.lookup "Message" efields with
      | some m => m
      | none => .str "An unknown error occurred"
    | _ => .str "An unknown error occurred"
  | _ => .str "An unknown error occurred"

theorem JValue.isNull_iff (v : JValue) : v.isNull = true ↔ v = .null := by
  cases v <;> simp [JValue.isNull]

theorem Pwinty.get_error_message_ok (jbody m : JValue)
    (h : Pwinty.get_error_message jbody = .ok m) :
    m = errorMessageSpec jbody := by
  cases jbody with
  | obj fields =>
    rcases he : List.lookup "Error" fields with _ | v
    · simp [Pwinty.get_error_message, pyGet, he, JValue.py_truthy,
        errorMessageSpec] at h ⊢
      exact h.symm
    · cases v with
      | null =>
        simp [Pwinty.get_error_message, pyGet, he, JValue.py_truthy,
          errorMessageSpec] at h ⊢
        exact h.symm
      | bool b =>
        cases b <;>
          simp [Pwinty.get_error_message, pyGet, pyContains, he,
            JValue.py_truthy, errorMessageSpec] at h ⊢
        exact h.symm
      | num n =>
        by_cases hn : n = 0 <;>
          simp [Pwinty.get_error_message, pyGet, pyContains, he, hn,
            JValue.py_truthy, errorMessageSpec] at h ⊢
        exact h.symm
      | str s =>
        by_cases hs : s = "" <;>
          by_cases hc : strContainsSub s "Message" = true <;>
          simp [Pwinty.get_error_message, pyGet, pyContains, he, hs, hc,
            JValue.py_truthy, errorMessageSpec] at h ⊢ <;>
          exact h.symm
      | arr elems =>
        by_cases hne : elems.isEmpty <;>
          by_cases ha : (elems.any fun e =>
              match e with
              | .str t => t == "Message"
              | _ => false) = true <;>
          simp [Pwinty.get_error_message, pyGet, pyContains, he, hne, ha,
            JValue.py_truthy, errorMessageSpec] at h ⊢ <;>
          exact h.symm
      | obj efields =>
        rcases hm : List.lookup "Message" efields with _ | w <;>
          by_cases hne : efields.isEmpty <;>
          simp [Pwinty.get_error_message, pyGet, pyContains, he, hm, hne,
            JValue.py_truthy, errorMessageSpec,
            List.isEmpty_iff] at h ⊢ <;>
          simp_all
  | null =>
    simp [Pwinty.get_error_message, pyGet] at h
  | bool b =>
    simp [Pwinty.get_error_message, pyGet] at h
  | num n =>
    simp [Pwinty.get_error_message, pyGet] at h
  | str s =>
    simp [Pwinty.get_error_message, pyGet] at h
  | arr elems =>
    simp [Pwinty.get_error_message, pyGet] at h

/-- C4: base URL resolution: sandbox chooses the "sandbox" host prefix,
sandbox=false the "api" prefix; the version segment defaults to "v2" when
unset and is embedded verbatim otherwise; in particular sandbox with
unset version gives https sandbox.pwinty.com/v2 and production with
version v3 gives https api.pwinty.com/v3. -/
theorem base_url_resolution (m k : String) :
    (Pwinty.init m k none true).api = "https://sandbox.pwinty.com/v2" ∧
    (Pwinty.init m k (some "v3") false).api = "https://api.pwinty.com/v3" ∧
    (∀ ver : String,
        (Pwinty.init m k (some ver) true).api = "https://sandbox.pwinty.com/" ++ ver ∧
        (Pwinty.init m k (some ver) false).api = "https://api.pwinty.com/" ++ ver) ∧
    (∀ sandbox : Bool,
        (Pwinty.init m k none sandbox).api = (Pwinty.init m k (some "v2") sandbox).api) := by
  refine ⟨rfl, rfl, fun ver => ⟨rfl, rfl⟩, fun sandbox => by cases sandbox <;> rfl⟩

/-- C5: every request built by the dispatch operation — hence every HTTP
request issued by any endpoint method, since all of them go through
`_call_api` — carries exactly the two authentication headers, the API key
under X-Pwinty-REST-API-Key and the merchant id under X-Pwinty-MerchantId,
for every method, path, file payload and body. -/
theorem request_auth_headers (m k : String) (version : Option String)
    (sandbox : Bool) (method api : String)
    (files : Option (List (String × JValue)))
    (kwargs : List (String × JValue)) :
    ((Pwinty.init m k version sandbox).buildRequest method api files kwargs).headers
      = [("X-Pwinty-REST-API-Key", k), ("X-Pwinty-MerchantId", m)] := rfl

/-- C6: the dispatch operation sends the empty body mapping when no body
parameters are given, and forwards named body parameters unchanged as the
request's data fields. -/
theorem dispatch_body_forwarding (p : Pwinty) (method api : String)
    (files : Option (List (String × JValue)))
    (kwargs : List (String × JValue)) :
    (p.buildRequest method api files []).data = [] ∧
    (p.buildRequest method api files kwargs).data = kwargs :=
  ⟨rfl, rfl⟩

/-- C7 (violated by the code): `add_photo` performs no close operation on
any path — the handle opened by open(imgfile, 'r') is never released —
while a call with a local file does perform the open. -/
theorem add_photo_never_closes_file :
    (∀ url imgfile : JValue,
        (Pwinty.add_photo_file_ops url imgfile).countP
          (fun op => FileOp.isClose op) = 0) ∧
    Pwinty.add_photo_file_ops .null (.str "photo.jpg")
      = [FileOp.openf (.str "photo.jpg") "r"] := by
  refine ⟨fun url imgfile => ?_, rfl⟩
  unfold Pwinty.add_photo_file_ops
  split
  · rfl
  · split
    · rfl
    · split <;> simp [FileOp.isClose]

/-- C3: with a 403 response, update_order, update_order_status, add_photo
and delete_photo each raise their endpoint-specific error; the generic
dispatch itself treats 403 as success, so every other endpoint returns
the 403 response body as-is; and on any status that is neither 403 nor
one of the generic error codes, the four endpoints succeed, so the
endpoint-specific error arises exactly at 403. -/
theorem endpoint_403_handling (p : Pwinty) (jbody : JValue)
    (order_id photo_id country_code quality_level : String)
    (kwargs : List (String × JValue)) (status : JValue)
    (ptype copies sizing price_to_user md5hash : JValue) (u : String) :
    p.update_order order_id kwargs (fun _ => ⟨403, jbody⟩)
      = .error (.pwintyError (.str "Order submitted and can not be updated")) ∧
    p.update_order_status order_id status (fun _ => ⟨403, jbody⟩)
      = .error (.pwintyError (.str "Can not move to specified status from current")) ∧
    p.add_photo order_id ptype (.str u) copies sizing price_to_user md5hash
        .null (fun _ => ⟨403, jbody⟩)
      = .error (.pwintyError (.str "Cannot add photos to this order")) ∧
    p.delete_photo order_id photo_id (fun _ => ⟨403, jbody⟩)
      = .error (.pwintyError (.str "Cannot remove photos from this order")) ∧
    handleResponse ⟨403, jbody⟩ = .ok ⟨403, jbody⟩ ∧
    p.get_orders (fun _ => ⟨403, jbody⟩) = .ok jbody ∧
    p.get_order order_id (fun _ => ⟨403, jbody⟩) = .ok jbody ∧
    p.create_order kwargs (fun _ => ⟨403, jbody⟩) = .ok jbody ∧
    p.get_submission_status order_id (fun _ => ⟨403, jbody⟩) = .ok jbody ∧
    p.get_countries (fun _ => ⟨403, jbody⟩) = .ok jbody ∧
    p.get_photos order_id (fun _ => ⟨403, jbody⟩) = .ok jbody ∧
    p.get_photo order_id photo_id (fun _ => ⟨403, jbody⟩) = .ok jbody ∧
    p.get_catalogue country_code quality_level (fun _ => ⟨403, jbody⟩) = .ok jbody ∧
    (∀ s : Nat, s ≠ 403 → s ≠ 401 → s ≠ 404 → s ≠ 400 → s < 500 →
      p.update_order order_id kwargs (fun _ => ⟨s, jbody⟩) = .ok jbody ∧
      p.update_order_status order_id status (fun _ => ⟨s, jbody⟩) = .ok jbody ∧
      p.add_photo order_id ptype (.str u) copies sizing price_to_user md5hash
          .null (fun _ => ⟨s, jbody⟩) = .ok jbody ∧
      p.delete_photo order_id photo_id (fun _ => ⟨s, jbody⟩) = .ok jbody) := by
  refine ⟨rfl, rfl, rfl, rfl, rfl, rfl, rfl, rfl, rfl, rfl, rfl, rfl, rfl,
    fun s h403 h401 h404 h400 h500 => ?_⟩
  have hok : handleResponse ⟨s, jbody⟩ = .ok ⟨s, jbody⟩ := by
    simp [handleResponse, h401, h404, h400, Nat.not_le.mpr h500]
  refine ⟨?_, ?_, ?_, ?_⟩ <;>
    simp [Pwinty.update_order, Pwinty.update_order_status, Pwinty.add_photo,
      Pwinty.delete_photo, Pwinty.call_api, hok, h403, JValue.isNull]

/-- C3 witness: at status 200 the four 403-guarded endpoints succeed. -/
theorem endpoint_403_handling_witness :
    (Pwinty.init "123456" "7890123" none true).update_order "7" []
      (fun _ => ⟨200, JValue.obj []⟩) = .ok (JValue.obj []) :=
  ((endpoint_403_handling (Pwinty.init "123456" "7890123" none true)
      (JValue.obj []) "7" "9" "GB" "Pro" [] (JValue.str "Printed")
      (JValue.str "4x6") JValue.null JValue.null JValue.null JValue.null
      "http://example.com/a.jpg").2.2.2.2.2.2.2.2.2.2.2.2.2
    200 (by decide) (by decide) (by decide) (by decide) (by decide)).1

/-- C1 (amended): the dispatch outcome by status code: 401 fails with
Authentication Failed, 404 with the resource-not-found message, 400 and
every code ≥ 500 fail with a PwintyError whose message is the body's
Error.Message extraction (the spec-side `errorMessageSpec`) whenever the
extraction returns normally — while an ill-shaped body or Error field
makes the extraction itself raise a TypeError / AttributeError, which
propagates instead — and every other status code is returned to the
caller unmodified. -/
theorem call_api_status_dispatch (status : Nat) (jbody : JValue) :
    (status = 401 → handleResponse ⟨status, jbody⟩
        = .error (.pwintyError (.str "Authentication Failed"))) ∧
    (status = 404 → handleResponse ⟨status, jbody⟩
        = .error (.pwintyError (.str "The specified resource could not be found"))) ∧
    ((status = 400 ∨ 500 ≤ status) →
       (∀ m, Pwinty.get_error_message jbody = .ok m →
          handleResponse ⟨status, jbody⟩
            = .error (.pwintyError (errorMessageSpec jbody))) ∧
       (∀ e, Pwinty.get_error_message jbody = .error e →
          handleResponse ⟨status, jbody⟩ = .error e)) ∧
    (status ≠ 401 → status ≠ 404 → status ≠ 400 → status < 500 →
       handleResponse ⟨status, jbody⟩ = .ok ⟨status, jbody⟩) := by
  refine ⟨?_, ?_, ?_, ?_⟩
  · rintro rfl; rfl
  · rintro rfl; rfl
  · intro h
    have h401 : status ≠ 401 := by omega
    have h404 : status ≠ 404 := by omega
    have hcond : (status == 400 || decide (500 ≤ status)) = true := by
      rcases h with rfl | h5
      · decide
      · simp [h5]
    constructor
    · intro m hm
      have hspec := Pwinty.get_error_message_ok jbody m hm
      simp [handleResponse, h401, h404, hcond, hm, hspec]
    · intro e he
      simp [handleResponse, h401, h404, hcond, he]
  · intro h401 h404 h400 h500
    simp [handleResponse, h401, h404, h400, Nat.not_le.mpr h500]

/-- C1 witness: a 500 response whose body carries Error.Message "boom"
fails with exactly that vendor message. -/
theorem call_api_status_dispatch_witness :
    handleResponse ⟨500, JValue.obj [("Error", JValue.obj [("Message", JValue.str "boom")])]⟩
      = .error (.pwintyError (.str "boom")) :=
  ((call_api_status_dispatch 500
      (JValue.obj [("Error", JValue.obj [("Message", JValue.str "boom")])])).2.2.1
    (Or.inr (by decide))).1 (JValue.str "boom") rfl

/-- C1 counterexample to the claim as stated: on a 400 response whose
body is the object with field Error = "Message" (a string), the code
raises an unhandled AttributeError — `'Message' in error` succeeds as a
substring test, then `error.get('Message')` is called on a string — so
the call does not fail with a PwintyError carrying the fallback message
the claim prescribes for a body with no Error.Message field. -/
theorem call_api_error_message_crash :
    handleResponse ⟨400, JValue.obj [("Error", JValue.str "Message")]⟩
      = .error PyExc.attributeError ∧
    (Except.error PyExc.attributeError
      ≠ (Except.error (PyExc.pwintyError (JValue.str "An unknown error occurred"))
          : Except PyExc Response)) := by
  refine ⟨rfl, ?_⟩
  intro hc
  injection hc with hc
  exact PyExc.noConfusion hc

theorem JValue.isNull_eq_false (v : JValue) (h : v ≠ .null) :
    v.isNull = false := by
  cases v <;> simp_all [JValue.isNull]

/-- C2: add_photo with neither url nor imgfile fails with the required
error and issues no request, for every transport; with both set it fails
with the cannot-use-both error and issues no request; with exactly one
set it issues exactly one request, whose body has copies 1 when copies
is unset and sizing Crop when sizing is unset. -/
theorem add_photo_validation (p : Pwinty) (order_id : String)
    (ptype url copies sizing price_to_user md5hash imgfile : JValue) :
    (url = .null → imgfile = .null →
      (∀ http, p.add_photo order_id ptype url copies sizing price_to_user
          md5hash imgfile http
        = .error (.pwintyError (.str "File or URL for the image is required"))) ∧
      p.add_photo_requests order_id ptype url copies sizing price_to_user
          md5hash imgfile = []) ∧
    (url ≠ .null → imgfile ≠ .null →
      (∀ http, p.add_photo order_id ptype url copies sizing price_to_user
          md5hash imgfile http
        = .error (.pwintyError (.str "Cannot use both a URL and a file"))) ∧
      p.add_photo_requests order_id ptype url copies sizing price_to_user
          md5hash imgfile = []) ∧
    (url ≠ .null → imgfile = .null →
      p.add_photo_requests order_id ptype url copies sizing price_to_user
          md5hash imgfile
        = [p.buildRequest "POST" ("/Orders/" ++ order_id ++ "/Photos")
            (Pwinty.addPhotoFiles imgfile)
            (Pwinty.addPhotoData ptype url copies sizing price_to_user md5hash)] ∧
      (copies = .null →
        List.lookup "copies"
            (Pwinty.addPhotoData ptype url copies sizing price_to_user md5hash)
          = some (.num 1)) ∧
      (sizing = .null →
        List.lookup "sizing"
            (Pwinty.addPhotoData ptype url copies sizing price_to_user md5hash)
          = some (.str "Crop"))) ∧
    (url = .null → imgfile ≠ .null →
      p.add_photo_requests order_id ptype url copies sizing price_to_user
          md5hash imgfile
        = [p.buildRequest "POST" ("/Orders/" ++ order_id ++ "/Photos")
            (Pwinty.addPhotoFiles imgfile)
            (Pwinty.addPhotoData ptype url copies sizing price_to_user md5hash)] ∧
      (copies = .null →
        List.lookup "copies"
            (Pwinty.addPhotoData ptype url copies sizing price_to_user md5hash)
          = some (.num 1)) ∧
      (sizing = .null →
        List.lookup "sizing"
            (Pwinty.addPhotoData ptype url copies sizing price_to_user md5hash)
          = some (.str "Crop"))) := by
  refine ⟨?_, ?_, ?_, ?_⟩
  · rintro rfl rfl
    exact ⟨fun http => rfl, rfl⟩
  · intro hu hi
    have hu' := JValue.isNull_eq_false url hu
    have hi' := JValue.isNull_eq_false imgfile hi
    exact ⟨fun http => by simp [Pwinty.add_photo, hu', hi'],
      by simp [Pwinty.add_photo_requests, hu', hi']⟩
  · intro hu hi
    subst hi
    have hu' := JValue.isNull_eq_false url hu
    refine ⟨by simp [Pwinty.add_photo_requests, hu', JValue.isNull], ?_, ?_⟩
    · rintro rfl
      simp [Pwinty.addPhotoData, List.lookup, JValue.py_truthy]
    · rintro rfl
      simp [Pwinty.addPhotoData, List.lookup, JValue.py_truthy]
  · intro hu hi
    subst hu
    have hi' := JValue.isNull_eq_false imgfile hi
    refine ⟨by simp [Pwinty.add_photo_requests, hi', JValue.isNull], ?_, ?_⟩
    · rintro rfl
      simp [Pwinty.addPhotoData, List.lookup, JValue.py_truthy]
    · rintro rfl
      simp [Pwinty.addPhotoData, List.lookup, JValue.py_truthy]

/-- C2 witness: both image sources missing fail before any request, and
a url-only call issues one request with the two defaults filled in. -/
theorem add_photo_validation_witness :
    (Pwinty.init "123456" "7890123" none true).add_photo "7"
        (JValue.str "4x6") JValue.null JValue.null JValue.null JValue.null
        JValue.null JValue.null (fun _ => ⟨200, JValue.obj []⟩)
      = .error (.pwintyError (.str "File or URL for the image is required")) ∧
    List.lookup "copies"
        (Pwinty.addPhotoData (JValue.str "4x6")
          (JValue.str "http://example.com/a.jpg") JValue.null JValue.null
          JValue.null JValue.null)
      = some (.num 1) :=
  ⟨((add_photo_validation (Pwinty.init "123456" "7890123" none true) "7"
      (JValue.str "4x6") JValue.null JValue.null JValue.null JValue.null
      JValue.null JValue.null).1 rfl rfl).1 (fun _ => ⟨200, JValue.obj []⟩),
   ((add_photo_validation (Pwinty.init "123456" "7890123" none true) "7"
      (JValue.str "4x6") (JValue.str "http://example.com/a.jpg") JValue.null
      JValue.null JValue.null JValue.null JValue.null).2.2.1
      (by intro h; exact JValue.noConfusion h) rfl).2.1 rfl⟩

/-- C8: the `or` defaulting in add_photo applies to every falsy supplied
value, not only to omitted ones: any falsy copies (0 in particular) is
sent as 1 and any falsy sizing ("" in particular) is sent as Crop in the
issued request body; 0 and the empty string are falsy. -/
theorem add_photo_falsy_defaults (p : Pwinty) (order_id : String)
    (ptype price_to_user md5hash : JValue) (u : String)
    (copies sizing : JValue)
    (hc : copies.py_truthy = false) (hs : sizing.py_truthy = false) :
    (p.add_photo_requests order_id ptype (.str u) copies sizing
        price_to_user md5hash .null
      = [p.buildRequest "POST" ("/Orders/" ++ order_id ++ "/Photos") none
          (Pwinty.addPhotoData ptype (.str u) copies sizing price_to_user md5hash)]) ∧
    List.lookup "copies"
        (Pwinty.addPhotoData ptype (.str u) copies sizing price_to_user md5hash)
      = some (.num 1) ∧
    List.lookup "sizing"
        (Pwinty.addPhotoData ptype (.str u) copies sizing price_to_user md5hash)
      = some (.str "Crop") ∧
    (JValue.num 0).py_truthy = false ∧
    (JValue.str "").py_truthy = false := by
  refine ⟨rfl, ?_, ?_, rfl, rfl⟩ <;>
    simp [Pwinty.addPhotoData, List.lookup, hc, hs]

/-- C8 witness: copies 0 and sizing "" are replaced by the defaults. -/
theorem add_photo_falsy_defaults_witness :
    List.lookup "copies"
        (Pwinty.addPhotoData (JValue.str "4x6")
          (JValue.str "http://example.com/a.jpg") (JValue.num 0)
          (JValue.str "") JValue.null JValue.null)
      = some (.num 1) ∧
    List.lookup "sizing"
        (Pwinty.addPhotoData (JValue.str "4x6")
          (JValue.str "http://example.com/a.jpg") (JValue.num 0)
          (JValue.str "") JValue.null JValue.null)
      = some (.str "Crop") :=
  ⟨(add_photo_falsy_defaults (Pwinty.init "123456" "7890123" none true) "7"
      (JValue.str "4x6") JValue.null JValue.null "http://example.com/a.jpg"
      (JValue.num 0) (JValue.str "") rfl rfl).2.1,
   (add_photo_falsy_defaults (Pwinty.init "123456" "7890123" none true) "7"
      (JValue.str "4x6") JValue.null JValue.null "http://example.com/a.jpg"
      (JValue.num 0) (JValue.str "") rfl rfl).2.2.1⟩

/-- C9: the validation tests None identity, not emptiness: the required
error is raised for every transport exactly when both url and imgfile are
None, the cannot-use-both error exactly when both are non-None; and with
url None and imgfile the empty string the call passes validation yet
issues its one request with no file payload and a None url field. -/
theorem add_photo_none_identity (p : Pwinty) (order_id : String)
    (ptype url copies sizing price_to_user md5hash imgfile : JValue) :
    ((∀ http, p.add_photo order_id ptype url copies sizing price_to_user
        md5hash imgfile http
      = .error (.pwintyError (.str "File or URL for the image is required")))
      ↔ (url = .null ∧ imgfile = .null)) ∧
    ((∀ http, p.add_photo order_id ptype url copies sizing price_to_user
        md5hash imgfile http
      = .error (.pwintyError (.str "Cannot use both a URL and a file")))
      ↔ (url ≠ .null ∧ imgfile ≠ .null)) ∧
    (p.add_photo_requests order_id ptype .null copies sizing price_to_user
        md5hash (.str "")
      = [p.buildRequest "POST" ("/Orders/" ++ order_id ++ "/Photos") none
          (Pwinty.addPhotoData ptype .null copies sizing price_to_user md5hash)]) ∧
    List.lookup "url"
        (Pwinty.addPhotoData ptype .null copies sizing price_to_user md5hash)
      = some .null := by
  refine ⟨⟨?_, ?_⟩, ⟨?_, ?_⟩, rfl, rfl⟩
  · intro H
    by_cases hu : url = .null <;> by_cases hi : imgfile = .null
    · exact ⟨hu, hi⟩
    · exfalso
      have hi' := JValue.isNull_eq_false imgfile hi
      have h := H (fun _ => ⟨200, JValue.obj []⟩)
      subst hu
      simp [Pwinty.add_photo, Pwinty.call_api, handleResponse, hi',
        JValue.isNull] at h
    · exfalso
      have hu' := JValue.isNull_eq_false url hu
      have h := H (fun _ => ⟨200, JValue.obj []⟩)
      subst hi
      simp [Pwinty.add_photo, Pwinty.call_api, handleResponse, hu',
        JValue.isNull] at h
    · exfalso
      have hu' := JValue.isNull_eq_false url hu
      have hi' := JValue.isNull_eq_false imgfile hi
      have h := H (fun _ => ⟨200, JValue.obj []⟩)
      simp [Pwinty.add_photo, hu', hi'] at h
  · rintro ⟨rfl, rfl⟩ http
    rfl
  · intro H
    by_cases hu : url = .null <;> by_cases hi : imgfile = .null
    · exfalso
      have h := H (fun _ => ⟨200, JValue.obj []⟩)
      subst hu
      subst hi
      simp [Pwinty.add_photo, JValue.isNull] at h
    · exfalso
      have hi' := JValue.isNull_eq_false imgfile hi
      have h := H (fun _ => ⟨200, JValue.obj []⟩)
      subst hu
      simp [Pwinty.add_photo, Pwinty.call_api, handleResponse, hi',
        JValue.isNull] at h
    · exfalso
      have hu' := JValue.isNull_eq_false url hu
      have h := H (fun _ => ⟨200, JValue.obj []⟩)
      subst hi
      simp [Pwinty.add_photo, Pwinty.call_api, handleResponse, hu',
        JValue.isNull] at h
    · exact ⟨hu, hi⟩
  · rintro ⟨hu, hi⟩ http
    have hu' := JValue.isNull_eq_false url hu
    have hi' := JValue.isNull_eq_false imgfile hi
    simp [Pwinty.add_photo, hu', hi']

/-- C9 witness: a call with both a url and a file fails with the
cannot-use-both error. -/
theorem add_photo_none_identity_witness :
    (Pwinty.init "123456" "7890123" none true).add_photo "7"
        (JValue.str "4x6") (JValue.str "http://example.com/a.jpg")
        JValue.null JValue.null JValue.null JValue.null
        (JValue.str "photo.jpg") (fun _ => ⟨200, JValue.obj []⟩)
      = .error (.pwintyError (.str "Cannot use both a URL and a file")) :=
  ((add_photo_none_identity (Pwinty.init "123456" "7890123" none true) "7"
      (JValue.str "4x6") (JValue.str "http://example.com/a.jpg") JValue.null
      JValue.null JValue.null JValue.null (JValue.str "photo.jpg")).2.1.mpr
    ⟨fun h => JValue.noConfusion h, fun h => JValue.noConfusion h⟩)
    (fun _ => ⟨200, JValue.obj []⟩)

/-- C10 counterexample to the claim as stated: in a validation-passing
call with copies not supplied (None), the request body's copies field is
1, not None — unsupplied optional fields are not all sent as None. -/
theorem add_photo_copies_not_null_cex :
    (Pwinty.init "123456" "7890123" none true).add_photo_requests "1"
        (JValue.str "4x6") (JValue.str "http://example.com/a.jpg")
        JValue.null JValue.null JValue.null JValue.null JValue.null
      = [(Pwinty.init "123456" "7890123" none true).buildRequest "POST"
          "/Orders/1/Photos" none
          (Pwinty.addPhotoData (JValue.str "4x6")
            (JValue.str "http://example.com/a.jpg") JValue.null JValue.null
            JValue.null JValue.null)] ∧
    List.lookup "copies"
        (Pwinty.addPhotoData (JValue.str "4x6")
          (JValue.str "http://example.com/a.jpg") JValue.null JValue.null
          JValue.null JValue.null)
      = some (JValue.num 1) ∧
    some (JValue.num 1) ≠ some JValue.null := by
  refine ⟨rfl, rfl, ?_⟩
  intro hc
  injection hc with hc
  exact JValue.noConfusion hc

/-- C10 (amended): every validation-passing add_photo call issues a
request whose body has exactly the six keys type, url, copies, sizing,
priceToUser, md5Hash in that order; url, priceToUser and md5Hash keep the
supplied value and are present with value None when unsupplied — in
particular url is sent as None when a local file is used — while copies
and sizing are present with the supplied value when truthy and with their
defaults 1 and Crop otherwise, never as None. -/
theorem add_photo_body_fields (p : Pwinty) (order_id : String)
    (ptype copies sizing price_to_user md5hash : JValue) (u f : String) :
    ((Pwinty.addPhotoData ptype (.str u) copies sizing price_to_user md5hash).map
        Prod.fst
      = ["type", "url", "copies", "sizing", "priceToUser", "md5Hash"]) ∧
    ((Pwinty.addPhotoData ptype .null copies sizing price_to_user md5hash).map
        Prod.fst
      = ["type", "url", "copies", "sizing", "priceToUser", "md5Hash"]) ∧
    (p.add_photo_requests order_id ptype (.str u) copies sizing price_to_user
        md5hash .null
      = [p.buildRequest "POST" ("/Orders/" ++ order_id ++ "/Photos") none
          (Pwinty.addPhotoData ptype (.str u) copies sizing price_to_user md5hash)]) ∧
    (p.add_photo_requests order_id ptype .null copies sizing price_to_user
        md5hash (.str f)
      = [p.buildRequest "POST" ("/Orders/" ++ order_id ++ "/Photos")
          (Pwinty.addPhotoFiles (.str f))
          (Pwinty.addPhotoData ptype .null copies sizing price_to_user md5hash)]) ∧
    (f ≠ "" → Pwinty.addPhotoFiles (.str f) = some [("file", .str f)]) ∧
    List.lookup "url"
        (Pwinty.addPhotoData ptype .null copies sizing price_to_user md5hash)
      = some .null ∧
    List.lookup "url"
        (Pwinty.addPhotoData ptype (.str u) copies sizing price_to_user md5hash)
      = some (.str u) ∧
    List.lookup "priceToUser"
        (Pwinty.addPhotoData ptype .null copies sizing price_to_user md5hash)
      = some price_to_user ∧
    List.lookup "md5Hash"
        (Pwinty.addPhotoData ptype .null copies sizing price_to_user md5hash)
      = some md5hash ∧
    List.lookup "copies"
        (Pwinty.addPhotoData ptype .null copies sizing price_to_user md5hash)
      = some (if copies.py_truthy then copies else .num 1) ∧
    List.lookup "sizing"
        (Pwinty.addPhotoData ptype .null copies sizing price_to_user md5hash)
      = some (if sizing.py_truthy then sizing else .str "Crop") := by
  refine ⟨rfl, rfl, rfl, rfl, ?_, rfl, rfl, rfl, rfl, rfl, rfl⟩
  intro hf
  simp [Pwinty.addPhotoFiles, JValue.py_truthy, hf]

/-- C10 witness: a local-file call issues its request with the file
payload attached and the url field sent as None. -/
theorem add_photo_body_fields_witness :
    Pwinty.addPhotoFiles (JValue.str "photo.jpg")
      = some [("file", JValue.str "photo.jpg")] ∧
    List.lookup "url"
        (Pwinty.addPhotoData (JValue.str "4x6") JValue.null JValue.null
          JValue.null JValue.null JValue.null)
      = some JValue.null :=
  ⟨(add_photo_body_fields (Pwinty.init "123456" "7890123" none true) "1"
      (JValue.str "4x6") JValue.null JValue.null JValue.null JValue.null
      "http://example.com/a.jpg" "photo.jpg").2.2.2.2.1 (by decide),
   (add_photo_body_fields (Pwinty.init "123456" "7890123" none true) "1"
      (JValue.str "4x6") JValue.null JValue.null JValue.null JValue.null
      "http://example.com/a.jpg" "photo.jpg").2.2.2.2.2.1⟩
